import Mathlib

/-!
# Verification of the grovectl remote-execution core

Shallow embedding of the grovectl repository's core modules:
`grovectl/utils/retry.py`, `grovectl/core/ssh.py`, `grovectl/core/exceptions.py`,
`grovectl/models/vm.py`, `grovectl/models/host.py` and `grovectl/core/vm_manager.py`.

External effects (the network, `paramiko`, `json.loads`, wall-clock time,
`random.random`) are modelled as explicit oracle parameters; everything the
repository's own code does (control flow, error classification, pool state
transitions, output parsing, batch aggregation) is translated directly.
-/

deriving instance DecidableEq for Except

namespace Grovectl

/-! ## Exceptions (grovectl/core/exceptions.py)

One constructor per exception class that can flow through the modelled code.
`sshAuth` and `sshTimeout` are Python subclasses of `SSHConnectionError`;
`vmNotFound`, `vmStart` and `vmStop` are subclasses of `VMOperationError`.
`validation` stands for pydantic's ValidationError, `typeErr` for builtin
TypeError/AttributeError, `runtimeError` for builtin RuntimeError. -/
inductive PyExc where
  | sshConn (host msg : String)
  | sshAuth (host : String) (username : Option String)
  | sshTimeout (host : String) (timeout : Nat)
  | hostNotFound (name : String)
  | vmOp (vmName operation msg : String) (host : Option String)
  | vmNotFound (vmName : String) (host : Option String)
  | vmStart (vmName msg : String) (host : Option String)
  | vmStop (vmName msg : String) (host : Option String)
  | validation (msg : String)
  | typeErr (msg : String)
  | runtimeError (msg : String)
deriving DecidableEq

/-- `isinstance(e, SSHConnectionError)`: true exactly for `SSHConnectionError`
and its subclasses `SSHAuthenticationError` and `SSHTimeoutError`. -/
def PyExc.isSSHConnectionError : PyExc → Bool
  | .sshConn _ _ => true
  | .sshAuth _ _ => true
  | .sshTimeout _ _ => true
  | _ => false

/-- Python `str(x)` for an `Optional[str]` (`str(None) = "None"`). -/
def optStr : Option String → String
  | some s => s
  | none => "None"

/-- Message built by `VMOperationError.__init__`. -/
def vmOpMessage (vmName operation msg : String) (host : Option String) : String :=
  let hostStr := match host with
    | some h => " on '" ++ h ++ "'"
    | none => ""
  "Failed to " ++ operation ++ " VM '" ++ vmName ++ "'" ++ hostStr ++ ": " ++ msg

/-- The `message` attribute set by each exception's constructor chain. -/
def PyExc.message : PyExc → String
  | .sshConn host msg => "SSH connection to '" ++ host ++ "' failed: " ++ msg
  | .sshAuth host username =>
      let m := match username with
        | some u => "authentication failed for user '" ++ u ++ "'"
        | none => "authentication failed"
      "SSH connection to '" ++ host ++ "' failed: " ++ m
  | .sshTimeout host timeout =>
      "SSH connection to '" ++ host ++ "' failed: connection timed out after "
        ++ toString timeout ++ "s"
  | .hostNotFound name => "Host '" ++ name ++ "' not found in configuration"
  | .vmOp vmName operation msg host => vmOpMessage vmName operation msg host
  | .vmNotFound vmName host => vmOpMessage vmName "find" "VM does not exist" host
  | .vmStart vmName msg host => vmOpMessage vmName "start" msg host
  | .vmStop vmName msg host => vmOpMessage vmName "stop" msg host
  | .validation msg => msg
  | .typeErr msg => msg
  | .runtimeError msg => msg

/-- The `details` dict set by `VMOperationError.__init__`. -/
def vmOpDetails (vmName operation : String) (host : Option String) :
    List (String × String) :=
  [("vm_name", vmName), ("operation", operation), ("host", optStr host)]

/-- The `details` dict of each exception, in insertion order. -/
def PyExc.details : PyExc → List (String × String)
  | .sshConn host _ => [("host", host)]
  | .sshAuth host _ => [("host", host)]
  | .sshTimeout host timeout => [("host", host), ("timeout", toString timeout)]
  | .hostNotFound name => [("host_name", name)]
  | .vmOp vmName operation _ host => vmOpDetails vmName operation host
  | .vmNotFound vmName host => vmOpDetails vmName "find" host
  | .vmStart vmName _ host => vmOpDetails vmName "start" host
  | .vmStop vmName _ host => vmOpDetails vmName "stop" host
  | .validation _ => []
  | .typeErr _ => []
  | .runtimeError _ => []

/-- `GrovectlError.__str__`: `message (k=v, ...)` when details is non-empty,
otherwise the bare message (also the `str` of builtin exceptions). -/
def pyStr (e : PyExc) : String :=
  match e.details with
  | [] => e.message
  | ds =>
      e.message ++ " (" ++ String.intercalate ", " (ds.map (fun kv => kv.1 ++ "=" ++ kv.2)) ++ ")"

/-! ## Python string primitives

`str.strip()`, `str.lower()` and `str.startswith(...)`, modelled over the
character list (ASCII lowering; whitespace = space, tab, CR, LF). -/

/-- `str.strip()`: drop leading and trailing whitespace. -/
def pyStrip (s : String) : String :=
  String.mk
    (((s.toList.dropWhile Char.isWhitespace).reverse.dropWhile Char.isWhitespace).reverse)

/-- ASCII lowering of one character. -/
def pyLowerChar (c : Char) : Char :=
  if 'A' ≤ c ∧ c ≤ 'Z' then Char.ofNat (c.toNat + 32) else c

/-- `str.lower()` (ASCII). -/
def pyLower (s : String) : String :=
  String.mk (s.toList.map pyLowerChar)

/-- `str.startswith(prefixStr)`. -/
def pyStartsWith (s prefixStr : String) : Bool :=
  prefixStr.toList.isPrefixOf s.toList

/-! ## SSHResult (grovectl/core/ssh.py, dataclass SSHResult) -/

structure SSHResult where
  stdout : String
  stderr : String
  exit_code : Int
  host : String
  command : String
deriving DecidableEq

/-- `SSHResult.success`: exit code 0. -/
def SSHResult.success (r : SSHResult) : Bool := r.exit_code == 0

/-! ## Retry policy (grovectl/utils/retry.py, retry_with_backoff)

The wrapped operation is a function of the (1-indexed) attempt number and a
threaded state; `rand` is the stream of `random.random()` draws (one per
sleep, indexed by the attempt that failed); the returned list holds the
delays passed to `time.sleep`, in order. -/

/-- The delay computed before the sleep that follows failed attempt
`attempt`: `min(base_delay * exponential_base^(attempt-1), max_delay)`,
then scaled by `1 + random.random() * 0.5` when jitter is enabled. -/
def pyDelay (baseDelay maxDelay expBase : ℚ) (jitter : Bool) (rand : Nat → ℚ)
    (attempt : Nat) : ℚ :=
  let d := min (baseDelay * expBase ^ (attempt - 1)) maxDelay
  if jitter then d * (1 + rand attempt * (1/2)) else d

/-- The retry loop body of `retry_with_backoff`, with `fuel` the number of
loop iterations remaining (`max_attempts - attempt + 1` at every call).
Exhausted fuel corresponds to the unreachable loop exit, which raises
`RuntimeError("Unexpected retry loop exit")` when no attempt ever ran. -/
def retryGo {σ α : Type} (op : Nat → σ → Except PyExc α × σ)
    (maxAttempts : Nat) (baseDelay maxDelay expBase : ℚ) (jitter : Bool)
    (retryable : PyExc → Bool) (rand : Nat → ℚ) :
    Nat → Nat → σ → Except PyExc α × σ × List ℚ
  | 0, _, st => (.error (.runtimeError "Unexpected retry loop exit"), st, [])
  | fuel + 1, attempt, st =>
    match op attempt st with
    | (.ok v, st') => (.ok v, st', [])
    | (.error e, st') =>
      if retryable e then
        if maxAttempts ≤ attempt then (.error e, st', [])
        else
          let d := pyDelay baseDelay maxDelay expBase jitter rand attempt
          let r := retryGo op maxAttempts baseDelay maxDelay expBase jitter retryable rand
            fuel (attempt + 1) st'
          (r.1, r.2.1, d :: r.2.2)
      else (.error e, st', [])

/-- `retry_with_backoff(...)` applied to `op`: attempts run from 1 to
`maxAttempts`; only errors with `retryable e = true` (the `exceptions`
allow-list, an isinstance check) are caught and retried; the final failure
is re-raised verbatim. -/
def retry_with_backoff {σ α : Type} (maxAttempts : Nat)
    (baseDelay maxDelay expBase : ℚ) (jitter : Bool)
    (retryable : PyExc → Bool) (rand : Nat → ℚ)
    (op : Nat → σ → Except PyExc α × σ) (st : σ) :
    Except PyExc α × σ × List ℚ :=
  retryGo op maxAttempts baseDelay maxDelay expBase jitter retryable rand maxAttempts 1 st

/-- State-free instance of the wrapper, returning the result and the slept
delays. -/
def retryPure {α : Type} (maxAttempts : Nat) (baseDelay maxDelay expBase : ℚ)
    (jitter : Bool) (retryable : PyExc → Bool) (rand : Nat → ℚ)
    (op : Nat → Except PyExc α) : Except PyExc α × List ℚ :=
  let r := retry_with_backoff maxAttempts baseDelay maxDelay expBase jitter retryable rand
    (fun attempt _ => (op attempt, ())) ()
  (r.1, r.2.2)

/-! ## Host (grovectl/models/host.py) -/

structure Host where
  name : String
  hostname : String
  username : Option String := none
  port : Nat := 22
  ssh_key : Option String := none
deriving DecidableEq

/-! ## SSH connection manager (grovectl/core/ssh.py, SSHManager)

A paramiko client object is identified by a `Nat`; the manager state tracks
the pool dict (`host.name ↦ PooledConnection`), the next fresh client id,
and which client ids have had `close()` called on them.  Per-call behaviour
of the external world (wall clock, transport liveness, what `connect` and
`exec_command` do) is an explicit environment. -/

structure PooledConnection where
  client : Nat
  hostStored : Host
  created_at : Int
deriving DecidableEq

structure MgrState where
  pool : List (String × PooledConnection)
  nextClient : Nat
  closed : List Nat
deriving DecidableEq

structure MgrCfg where
  default_timeout : Nat := 30
  pool_max_age : Nat := 300

/-- Dict lookup `pool[key]` / `key in pool`. -/
def poolFind : List (String × PooledConnection) → String → Option PooledConnection
  | [], _ => none
  | (k, v) :: rest, key => if k = key then some v else poolFind rest key

/-- Dict deletion `del pool[key]`. -/
def poolErase (p : List (String × PooledConnection)) (key : String) :
    List (String × PooledConnection) :=
  p.filter (fun kv => kv.1 ≠ key)

/-- Dict assignment `pool[key] = v` (replaces in place, else appends). -/
def poolInsert : List (String × PooledConnection) → String → PooledConnection →
    List (String × PooledConnection)
  | [], key, v => [(key, v)]
  | (k, v') :: rest, key, v =>
    if k = key then (key, v) :: rest else (k, v') :: poolInsert rest key v

/-- What `paramiko.SSHClient.connect` does on this call: succeed, or raise
`AuthenticationException`, `TimeoutError`, or `SSHException`/`OSError`. -/
inductive CreateErr where
  | authFail
  | timeoutFail
  | other (msg : String)
deriving DecidableEq

/-- Environment of one `get_client`/`_create_client` call. -/
structure ConnEnv where
  now : Int
  isActive : Nat → Bool
  createErr : Option CreateErr

/-- `SSHManager._create_client`: classifies paramiko failures into the
grovectl SSH error hierarchy; on success the fresh client is `st.nextClient`. -/
def create_client (cfg : MgrCfg) (host : Host) (timeout : Option Nat)
    (env : ConnEnv) (st : MgrState) : Except PyExc Nat × MgrState :=
  let connect_timeout := timeout.getD cfg.default_timeout
  match env.createErr with
  | some .authFail => (.error (.sshAuth host.hostname host.username), st)
  | some .timeoutFail => (.error (.sshTimeout host.hostname connect_timeout), st)
  | some (.other m) => (.error (.sshConn host.hostname m), st)
  | none => (.ok st.nextClient, { st with nextClient := st.nextClient + 1 })

/-- The create-and-insert tail of `get_client` (lines 221-224 of ssh.py):
`client = self._create_client(host, password=password)` followed by
`self._pool[host.name] = PooledConnection(client=client, host=host)`. -/
def createAndPool (cfg : MgrCfg) (host : Host) (env : ConnEnv) (st : MgrState) :
    Except PyExc Nat × MgrState :=
  match create_client cfg host none env st with
  | (.error e, st') => (.error e, st')
  | (.ok c, st') =>
      (.ok c, { st' with pool := poolInsert st'.pool host.name ⟨c, host, env.now⟩ })

/-- `SSHManager.get_client(host, password, force_new)`. -/
def get_client (cfg : MgrCfg) (host : Host) (force_new : Bool) (env : ConnEnv)
    (st : MgrState) : Except PyExc Nat × MgrState :=
  match (if force_new then none else poolFind st.pool host.name) with
  | some pooled =>
    if env.isActive pooled.client
        && decide (env.now - pooled.created_at < (cfg.pool_max_age : Int)) then
      (.ok pooled.client, st)
    else
      createAndPool cfg host env
        { st with pool := poolErase st.pool host.name,
                  closed := pooled.client :: st.closed }
  | none => createAndPool cfg host env st

/-- What `client.exec_command` and the subsequent reads do on this call. -/
inductive ExecEvent where
  | timeoutFail
  | sshException (msg : String)
  | done (stdout stderr : String) (exit_code : Int)
deriving DecidableEq

/-- Environment of one attempt of `SSHManager.run`'s body. -/
structure AttemptEnv where
  conn : ConnEnv
  execEv : ExecEvent

/-- Python `f"{timeout}"` for `timeout: int | None`. -/
def natOptStr : Option Nat → String
  | some n => toString n
  | none => "None"

/-- The body of `SSHManager.run` (one attempt, inside the retry decorator):
dry-run sentinel short-circuit, else `get_client` then `exec_command`; a
`TimeoutError` during execution is wrapped into `SSHConnectionError`; a
`paramiko.SSHException` evicts the pooled entry and is wrapped likewise. -/
def run_body (cfg : MgrCfg) (host : Host) (command : String)
    (timeout : Option Nat) (dry_run : Bool) (env : AttemptEnv) (st : MgrState) :
    Except PyExc SSHResult × MgrState :=
  if dry_run then
    (.ok { stdout := "[dry-run mode - command not executed]", stderr := "",
           exit_code := 0, host := host.name, command := command }, st)
  else
    match get_client cfg host false env.conn st with
    | (.error e, st') => (.error e, st')
    | (.ok _client, st') =>
      match env.execEv with
      | .timeoutFail =>
          (.error (.sshConn host.hostname
            ("Command timed out after " ++ natOptStr timeout ++ "s")), st')
      | .sshException m =>
          (.error (.sshConn host.hostname m),
           { st' with pool := poolErase st'.pool host.name })
      | .done out err code =>
          (.ok { stdout := pyStrip out, stderr := pyStrip err, exit_code := code,
                 host := host.name, command := command }, st')

/-- `SSHManager.run`: the body wrapped by
`@retry_with_backoff(max_attempts=3, base_delay=1.0, exceptions=(SSHConnectionError,))`
(remaining decorator parameters at their defaults: `max_delay=30.0`,
`exponential_base=2.0`, `jitter=True`). -/
def SSHrun (cfg : MgrCfg) (host : Host) (command : String) (timeout : Option Nat)
    (dry_run : Bool) (envs : Nat → AttemptEnv) (rand : Nat → ℚ) (st : MgrState) :
    Except PyExc SSHResult × MgrState × List ℚ :=
  retry_with_backoff 3 1 30 2 true PyExc.isSSHConnectionError rand
    (fun attempt s => run_body cfg host command timeout dry_run (envs attempt) s) st

/-! ## VM model (grovectl/models/vm.py) -/

inductive VMState where
  | running | stopped | starting | stopping | suspended | unknown
deriving DecidableEq

/-- `VMState(state_str)` with the `ValueError → UNKNOWN` fallback. -/
def VMState.ofString (s : String) : VMState :=
  if s = "running" then .running
  else if s = "stopped" then .stopped
  else if s = "starting" then .starting
  else if s = "stopping" then .stopping
  else if s = "suspended" then .suspended
  else .unknown

structure VM where
  name : String
  host : String
  state : VMState := .unknown
  cpu : Option Int := none
  memory : Option Int := none
  disk : Option Int := none
  ip_address : Option String := none
  source_image : Option String := none
deriving DecidableEq

/-- The pydantic field constraints of `VM`: `name` min_length 1, `cpu ≥ 1`,
`memory ≥ 512`, `disk ≥ 1` (each only when present). -/
def VM.valid (vm : VM) : Bool :=
  decide (1 ≤ vm.name.length)
    && (match vm.cpu with | some c => decide (1 ≤ c) | none => true)
    && (match vm.memory with | some m => decide (512 ≤ m) | none => true)
    && (match vm.disk with | some d => decide (1 ≤ d) | none => true)

/-- Pydantic model construction: returns the VM or raises ValidationError. -/
def mkVM (vm : VM) : Except PyExc VM :=
  if vm.valid then .ok vm else .error (.validation ("validation error for VM " ++ vm.name))

/-! ## Decoded JSON values

The shape of what `json.loads` returns; the decoder itself is an oracle
`String → Option JValue` (`none` = `json.JSONDecodeError`). -/

inductive JValue where
  | null
  | jbool (b : Bool)
  | num (n : Int)
  | str (s : String)
  | arr (items : List JValue)
  | obj (fields : List (String × JValue))

/-- `dict.get(key)` on a decoded JSON object. -/
def jlookup : List (String × JValue) → String → Option JValue
  | [], _ => none
  | (k, v) :: rest, key => if k = key then some v else jlookup rest key

/-- `tart_data.get("State", "unknown").lower()`: a present non-string raises
AttributeError (no `.lower`). -/
def getStateStr : Option JValue → Except PyExc String
  | none => .ok "unknown"
  | some (.str s) => .ok (pyLower s)
  | some _ => .error (.typeErr "AttributeError: lower")

/-- A pydantic `int | None` field fed from `dict.get`: absent is `None`; a
JSON number passes through; other shapes fail validation. -/
def getOptInt (field : String) : Option JValue → Except PyExc (Option Int)
  | none => .ok none
  | some (.num n) => .ok (some n)
  | some _ => .error (.validation ("validation error for field " ++ field))

/-- A pydantic `str | None` field fed from `dict.get`. -/
def getOptStr (field : String) : Option JValue → Except PyExc (Option String)
  | none => .ok none
  | some (.str s) => .ok (some s)
  | some _ => .error (.validation ("validation error for field " ++ field))

/-- `VM.from_tart_output(name, host, tart_data)`. -/
def VM.from_tart_output (name host : String) (tart_data : List (String × JValue)) :
    Except PyExc VM := do
  let stateStr ← getStateStr (jlookup tart_data "State")
  let state := VMState.ofString stateStr
  let cpu ← getOptInt "CPU" (jlookup tart_data "CPU")
  let memory ← getOptInt "Memory" (jlookup tart_data "Memory")
  let disk ← getOptInt "Disk" (jlookup tart_data "Disk")
  let source ← getOptStr "Source" (jlookup tart_data "Source")
  mkVM { name := name, host := host, state := state, cpu := cpu,
         memory := memory, disk := disk, source_image := source }

/-! ## Glob matching (Python fnmatch, used by list_vms)

Modelled at the library boundary for patterns built from literals, `*` and
`?` (the bracket-class syntax of fnmatch is not used by this repository's
callers or by the claims).  Structurally recursive on a fuel argument that
strictly exceeds the maximal recursion depth `p.length + s.length`, so the
`fuel = 0` branch is unreachable from `fnmatch`. -/

def globMatchAux : Nat → List Char → List Char → Bool
  | 0, _, _ => false
  | _ + 1, [], [] => true
  | _ + 1, [], _ :: _ => false
  | fuel + 1, '*' :: ps, [] => globMatchAux fuel ps []
  | fuel + 1, '*' :: ps, c :: ss =>
      globMatchAux fuel ps (c :: ss) || globMatchAux fuel ('*' :: ps) ss
  | _ + 1, '?' :: _, [] => false
  | fuel + 1, '?' :: ps, _ :: ss => globMatchAux fuel ps ss
  | _ + 1, _ :: _, [] => false
  | fuel + 1, p :: ps, c :: ss => (p == c) && globMatchAux fuel ps ss

/-- `fnmatch.fnmatch(name, pat)` (POSIX: no case normalization). -/
def fnmatch (name pat : String) : Bool :=
  globMatchAux (pat.length + name.length + 1) pat.toList name.toList

/-! ## VM orchestrator (grovectl/core/vm_manager.py, VMManager)

`sshRun` abstracts `self.ssh.run(host, cmd, dry_run=self.dry_run)` (the SSH
layer including its retry policy); `decode` abstracts `json.loads`. -/

structure Env where
  hosts : List Host
  sshRun : Host → String → Except PyExc SSHResult
  decode : String → Option JValue

/-- `ConfigManager.get_host` / `HostConfig.get_host`: first host with the
given name. -/
def findHost : List Host → String → Option Host
  | [], _ => none
  | h :: rest, n => if h.name = n then some h else findHost rest n

/-- `VMManager._get_host`: resolve or raise `HostNotFoundError`. -/
def get_host (env : Env) (name : String) : Except PyExc Host :=
  match findHost env.hosts name with
  | some h => .ok h
  | none => .error (.hostNotFound name)

/-- Command string built by `VMManager._run_tart`. -/
def tart_command (subcommand : String) (jsonOutput : Bool) (args : List String) :
    String :=
  String.intercalate " "
    (["tart", subcommand] ++ (if jsonOutput then ["--format", "json"] else []) ++ args)

/-- `VMManager._run_tart`. -/
def run_tart (env : Env) (host : Host) (subcommand : String) (args : List String)
    (jsonOutput : Bool) : Except PyExc SSHResult :=
  env.sshRun host (tart_command subcommand jsonOutput args)

/-- Python truthiness of an `str | None` parameter (`if host_name:`). -/
def truthy : Option String → Bool
  | some s => s ≠ ""
  | none => false

/-- Python `needle in hay` on strings, as contiguous-sublist search over the
character lists. -/
def charsContain (needle : List Char) : List Char → Bool
  | [] => needle.isEmpty
  | c :: rest => needle.isPrefixOf (c :: rest) || charsContain needle rest

/-- `"not found" in stderr.lower()`. -/
def containsNotFound (s : String) : Bool :=
  charsContain "not found".toList (pyLower s).toList

/-- The loop body of `_parse_tart_list`: per decoded item,
`name = item.get("Name", "unknown")` then `VM.from_tart_output`; iterating a
non-dict item raises (AttributeError on `.get`). -/
def parseItems (host_name : String) : List JValue → Except PyExc (List VM)
  | [] => .ok []
  | .obj fields :: rest => do
      let name ← match jlookup fields "Name" with
        | some (.str s) => pure s
        | none => pure "unknown"
        | some _ => Except.error (.validation "validation error for field Name")
      let vm ← VM.from_tart_output name host_name fields
      let vms ← parseItems host_name rest
      pure (vm :: vms)
  | _ :: _ => .error (.typeErr "AttributeError: get")

/-- `VMManager._parse_tart_list`: empty or dry-run-sentinel output parses as
zero VMs; a `json.JSONDecodeError` is caught and maps to zero VMs; iterating
a decoded non-array raises TypeError/AttributeError (which escapes, as does
a pydantic ValidationError from any item). -/
def parse_tart_list (env : Env) (output : String) (host_name : String) :
    Except PyExc (List VM) :=
  if output = "" || pyStartsWith output "[dry-run" then .ok []
  else
    match env.decode output with
    | none => .ok []
    | some (.arr data) => parseItems host_name data
    | some (.obj []) => .ok []
    | some (.str s) => if s = "" then .ok [] else .error (.typeErr "AttributeError: get")
    | some _ => .error (.typeErr "TypeError: not iterable")

/-- `VMManager._list_vms_on_host`: the whole try-block (run + parse) is
guarded by `except Exception`, which logs and returns `[]`; a non-zero exit
also returns `[]`. -/
def list_vms_on_host (env : Env) (host : Host) : List VM :=
  match run_tart env host "list" [] true with
  | .error _ => []
  | .ok r =>
    if r.success then
      match parse_tart_list env r.stdout host.name with
      | .error _ => []
      | .ok vms => vms
    else []

/-- The pattern filter at the end of `list_vms` (`if pattern:` then a
list-comprehension over `fnmatch`). -/
def patternFilter (pattern : Option String) (vms : List VM) : List VM :=
  if truthy pattern then
    vms.filter (fun vm => fnmatch vm.name (pattern.getD ""))
  else vms

/-- `VMManager.list_vms(host_name, pattern)`: resolve one named host (raising
`HostNotFoundError`) or take all configured hosts, collect per host, then
apply the pattern filter to the combined list. -/
def list_vms (env : Env) (host_name pattern : Option String) :
    Except PyExc (List VM) :=
  if truthy host_name then
    match get_host env (host_name.getD "") with
    | .error e => .error e
    | .ok h => .ok (patternFilter pattern (list_vms_on_host env h))
  else
    .ok (patternFilter pattern (env.hosts.flatMap (fun h => list_vms_on_host env h)))

/-- `VMManager.get_vm`: first VM of the host's listing with the given name. -/
def get_vm (env : Env) (name host_name : String) : Except PyExc (Option VM) :=
  match list_vms env (some host_name) none with
  | .error e => .error e
  | .ok vms => .ok (vms.find? (fun vm => vm.name == name))

/-- `VMManager.start_vm` (progress display omitted: it does not affect the
result): run `tart run NAME --no-graphics`, translate failures, then
re-query status and fall back to a synthetic `starting` VM. -/
def start_vm (env : Env) (name host_name : String) : Except PyExc VM := do
  let host ← get_host env host_name
  let result ← run_tart env host "run" [name, "--no-graphics"] false
  if result.success then
    match ← get_vm env name host_name with
    | some vm => pure vm
    | none => mkVM { name := name, host := host_name, state := .starting }
  else if containsNotFound result.stderr then
    Except.error (.vmNotFound name (some host_name))
  else
    Except.error (.vmStart name result.stderr (some host_name))

/-- `VMManager.stop_vm`: run `tart stop NAME [--force]`, translate failures,
synthesize a `stopped` VM on success. -/
def stop_vm (env : Env) (name host_name : String) (force : Bool) :
    Except PyExc VM := do
  let host ← get_host env host_name
  let args := [name] ++ (if force then ["--force"] else [])
  let result ← run_tart env host "stop" args false
  if result.success then
    mkVM { name := name, host := host_name, state := .stopped }
  else if containsNotFound result.stderr then
    Except.error (.vmNotFound name (some host_name))
  else
    Except.error (.vmStop name result.stderr (some host_name))

/-- `VMManager.delete_vm`. -/
def delete_vm (env : Env) (name host_name : String) : Except PyExc Bool := do
  let host ← get_host env host_name
  let result ← run_tart env host "delete" [name] false
  if result.success then
    pure true
  else if containsNotFound result.stderr then
    Except.error (.vmNotFound name (some host_name))
  else
    Except.error (.vmOp name "delete" result.stderr (some host_name))

/-- The per-VM branch of `batch_start`'s loop. -/
def startResult (env : Env) (vm : VM) : String × Bool × String :=
  if vm.state = VMState.running then (vm.name, true, "Already running")
  else
    match start_vm env vm.name vm.host with
    | .ok _ => (vm.name, true, "Started")
    | .error e => (vm.name, false, pyStr e)

/-- The per-VM branch of `batch_stop`'s loop. -/
def stopResult (env : Env) (force : Bool) (vm : VM) : String × Bool × String :=
  if vm.state = VMState.stopped then (vm.name, true, "Already stopped")
  else
    match stop_vm env vm.name vm.host force with
    | .ok _ => (vm.name, true, "Stopped")
    | .error e => (vm.name, false, pyStr e)

/-- The loop of `batch_start`, also recording, in order, the `(name, host)`
pairs on which `start_vm` is invoked (each such invocation issues the remote
start command; the already-running short-circuit issues none). -/
def batchStartGo (env : Env) : List VM →
    List (String × Bool × String) × List (String × String)
  | [] => ([], [])
  | vm :: rest =>
    let r := batchStartGo env rest
    if vm.state = VMState.running then
      ((vm.name, true, "Already running") :: r.1, r.2)
    else
      (startResult env vm :: r.1, (vm.name, vm.host) :: r.2)

/-- The loop of `batch_stop`, instrumented like `batchStartGo`. -/
def batchStopGo (env : Env) (force : Bool) : List VM →
    List (String × Bool × String) × List (String × String)
  | [] => ([], [])
  | vm :: rest =>
    let r := batchStopGo env force rest
    if vm.state = VMState.stopped then
      ((vm.name, true, "Already stopped") :: r.1, r.2)
    else
      (stopResult env force vm :: r.1, (vm.name, vm.host) :: r.2)

/-- `VMManager.batch_start(pattern, host_name)`. -/
def batch_start (env : Env) (pattern : String) (host_name : Option String) :
    Except PyExc (List (String × Bool × String) × List (String × String)) := do
  let vms ← list_vms env host_name (some pattern)
  pure (batchStartGo env vms)

/-- `VMManager.batch_stop(pattern, host_name, force)`. -/
def batch_stop (env : Env) (pattern : String) (host_name : Option String)
    (force : Bool) :
    Except PyExc (List (String × Bool × String) × List (String × String)) := do
  let vms ← list_vms env host_name (some pattern)
  pure (batchStopGo env force vms)

/-! ## Concrete fixtures used by witnesses and counterexamples -/

/-- A single test host. -/
def hostA : Host := { name := "A", hostname := "a.local" }

/-- A manager state holding one pooled connection (client id 7, created at
time 9) for host `A`; the next fresh client id is 8. -/
def stPool7 : MgrState := { pool := [("A", ⟨7, hostA, 9⟩)], nextClient := 8, closed := [] }

/-- Attempt environments where attempt 1 hits a paramiko
`AuthenticationException` during connection and attempt 2 connects and runs
the command successfully. -/
def envsAuthThenOk : Nat → AttemptEnv := fun a =>
  if a = 1 then ⟨⟨0, fun _ => true, some .authFail⟩, .done "" "" 0⟩
  else ⟨⟨5, fun _ => true, none⟩, .done " out " "" 0⟩

/-- Attempt environments where attempt 1 connects but the command execution
raises `TimeoutError`, and attempt 2 runs the command successfully. -/
def envsExecTimeoutThenOk : Nat → AttemptEnv := fun a =>
  if a = 1 then ⟨⟨0, fun _ => true, none⟩, .timeoutFail⟩
  else ⟨⟨5, fun _ => true, none⟩, .done "out" "" 0⟩

/-- Operation outcomes for the retry-policy witness: attempt 1 fails with a
connection error, attempt 2 succeeds with value 42. -/
def fRetry : Nat → Except PyExc Nat := fun a =>
  if a ≤ 1 then .error (.sshConn "h" "boom") else .ok 42

/-- Orchestrator fixture: one host whose listing yields `test-1` (running),
`test-2` (stopped) and `builder-1` (suspended). -/
def envList3 : Env :=
  ⟨[hostA],
   fun _ _ => .ok ⟨"LIST", "", 0, "A", "tart list --format json"⟩,
   fun s => if s = "LIST" then
     some (.arr [.obj [("Name", .str "test-1"), ("State", .str "running")],
                 .obj [("Name", .str "test-2"), ("State", .str "stopped")],
                 .obj [("Name", .str "builder-1"), ("State", .str "suspended")]])
     else none⟩

/-- Orchestrator fixture for C10: the listing of host `A` decodes to a valid
record (`good-vm`, CPU 4, Memory 8192) followed by a record violating the VM
model (`bad-vm`, CPU 0 < 1). -/
def envBadRecord : Env :=
  ⟨[hostA],
   fun _ _ => .ok ⟨"LIST", "", 0, "A", "tart list --format json"⟩,
   fun s => if s = "LIST" then
     some (.arr [.obj [("Name", .str "good-vm"), ("State", .str "running"),
                       ("CPU", .num 4), ("Memory", .num 8192)],
                 .obj [("Name", .str "bad-vm"), ("State", .str "stopped"),
                       ("CPU", .num 0)]])
     else none⟩

/-- The decoded items of `envBadRecord`'s listing. -/
def goodItem : JValue :=
  .obj [("Name", .str "good-vm"), ("State", .str "running"),
        ("CPU", .num 4), ("Memory", .num 8192)]

/-- The invalid record of `envBadRecord`'s listing (CPU below 1). -/
def badItem : JValue :=
  .obj [("Name", .str "bad-vm"), ("State", .str "stopped"), ("CPU", .num 0)]

/-- Batch fixture: host `A` lists `b-1` (running) and `b-2` (stopped); the
start command for `b-2` fails with exit 1 and stderr `boom`, and every stop
command succeeds. -/
def envBatch : Env :=
  ⟨[hostA],
   fun _ cmd =>
     if cmd = "tart list --format json" then .ok ⟨"LIST", "", 0, "A", cmd⟩
     else if cmd = "tart run b-2 --no-graphics" then .ok ⟨"", "boom", 1, "A", cmd⟩
     else .ok ⟨"", "", 0, "A", cmd⟩,
   fun s => if s = "LIST" then
     some (.arr [.obj [("Name", .str "b-1"), ("State", .str "running")],
                 .obj [("Name", .str "b-2"), ("State", .str "stopped")]])
     else none⟩

/-- The VM records listed by `envBatch`. -/
def vmB1 : VM := { name := "b-1", host := "A", state := .running }

/-- The stopped VM record listed by `envBatch`. -/
def vmB2 : VM := { name := "b-2", host := "A", state := .stopped }

/-- Fixture for the stop scenario of C5: the remote `tart stop vm-1 --force`
exits 1 with stderr `VM not found`. -/
def envStopNotFound : Env :=
  ⟨[hostA],
   fun _ cmd =>
     if cmd = "tart stop vm-1 --force" then .ok ⟨"", "VM not found", 1, "A", cmd⟩
     else .error (.runtimeError "unexpected command"),
   fun _ => none⟩

/-- Fixture for C6: `tart run vm-1 --no-graphics` succeeds but the follow-up
listing of host `A` is empty, so the status re-query finds nothing. -/
def envStartNoRequery : Env :=
  ⟨[hostA],
   fun _ cmd =>
     if cmd = "tart run vm-1 --no-graphics" then .ok ⟨"", "", 0, "A", cmd⟩
     else .ok ⟨"", "", 0, "A", cmd⟩,
   fun _ => none⟩

/-- Fixture for C7: two hosts, the first unreachable (its listing raises a
connection error after retries), the second listing one VM `ok-vm`. -/
def envTwoHosts : Env :=
  ⟨[hostA, { name := "B", hostname := "b.local" }],
   fun h _ =>
     if h.name = "A" then .error (.sshConn "a.local" "unreachable")
     else .ok ⟨"LISTB", "", 0, "B", "tart list --format json"⟩,
   fun s => if s = "LISTB" then
     some (.arr [.obj [("Name", .str "ok-vm"), ("State", .str "running")]])
     else none⟩

/-! ## Helper lemmas -/

/-- Characterization of the retry loop on a state-free operation that fails
retryably on every attempt in `[a, a + k)` and succeeds at attempt `a + k`:
it returns the success value after sleeping once per failed attempt, with
the delay of each failed attempt given by `pyDelay`. -/
theorem retryGo_pure_spec {α : Type} (f : Nat → Except PyExc α)
    (maxA : Nat) (b M eb : ℚ) (jitter : Bool) (retryable : PyExc → Bool)
    (rand : Nat → ℚ) (v : α) :
    ∀ (k a fuel : Nat), k < fuel → a + k ≤ maxA →
      (∀ j, a ≤ j → j < a + k → ∃ e, f j = .error e ∧ retryable e = true) →
      f (a + k) = .ok v →
      retryGo (fun t _ => (f t, ())) maxA b M eb jitter retryable rand fuel a () =
        (.ok v, (), (List.range k).map (fun i => pyDelay b M eb jitter rand (a + i))) := by
  intro k
  induction k with
  | zero =>
    intro a fuel hfuel _ _ hok
    obtain ⟨m, rfl⟩ : ∃ m, fuel = m + 1 := ⟨fuel - 1, by omega⟩
    rw [show a + 0 = a from rfl] at hok
    simp only [retryGo, hok, List.range_zero, List.map_nil]
  | succ k ih =>
    intro a fuel hfuel hmax hfail hok
    obtain ⟨m, rfl⟩ : ∃ m, fuel = m + 1 := ⟨fuel - 1, by omega⟩
    obtain ⟨e, he, hre⟩ := hfail a le_rfl (by omega)
    simp only [retryGo, he, hre, if_true]
    have hnotlast : ¬ maxA ≤ a := by omega
    rw [if_neg hnotlast]
    have hrec := ih (a + 1) m (by omega) (by omega)
      (fun j h1 h2 => hfail j (by omega) (by omega))
      (by rw [show a + 1 + k = a + (k + 1) from by omega]; exact hok)
    rw [hrec]
    have hlist : (List.range (k + 1)).map (fun i => pyDelay b M eb jitter rand (a + i)) =
        pyDelay b M eb jitter rand a ::
          (List.range k).map (fun i => pyDelay b M eb jitter rand (a + 1 + i)) := by
      rw [List.range_succ_eq_map, List.map_cons, List.map_map]
      refine congrArg₂ List.cons (by simp) ?_
      refine List.map_congr_left fun i _ => ?_
      simp only [Function.comp_apply]
      exact congrArg (pyDelay b M eb jitter rand) (by omega)
    rw [hlist]

/-- Every error raised by `_create_client` (hence by the create path of
`get_client`) is an instance of `SSHConnectionError`. -/
theorem createAndPool_error_class (cfg : MgrCfg) (host : Host) (env : ConnEnv)
    (st : MgrState) (e : PyExc) (st' : MgrState)
    (h : createAndPool cfg host env st = (.error e, st')) :
    e.isSSHConnectionError = true := by
  unfold createAndPool create_client at h
  rcases hce : env.createErr with _ | ce
  · rw [hce] at h; simp at h
  · rcases ce <;> rw [hce] at h <;>
      simp only [Prod.mk.injEq, Except.error.injEq] at h <;>
      rw [← h.1] <;> rfl

/-- Every error raised by `get_client` is an instance of
`SSHConnectionError`. -/
theorem get_client_error_class (cfg : MgrCfg) (host : Host) (force_new : Bool)
    (env : ConnEnv) (st : MgrState) (e : PyExc) (st' : MgrState)
    (h : get_client cfg host force_new env st = (.error e, st')) :
    e.isSSHConnectionError = true := by
  unfold get_client at h
  split at h
  · split at h
    · simp at h
    · exact createAndPool_error_class _ _ _ _ _ _ h
  · exact createAndPool_error_class _ _ _ _ _ _ h

/-- Every error escaping the body of `SSHManager.run` in live mode is an
instance of `SSHConnectionError` (the retry decorator's allow-list):
connection failures come classified by `_create_client`, and both
`TimeoutError` and `paramiko.SSHException` during execution are wrapped into
`SSHConnectionError`. -/
theorem run_body_error_class (cfg : MgrCfg) (host : Host) (command : String)
    (timeout : Option Nat) (env : AttemptEnv) (st : MgrState) (e : PyExc)
    (st' : MgrState)
    (h : run_body cfg host command timeout false env st = (.error e, st')) :
    e.isSSHConnectionError = true := by
  unfold run_body at h
  rw [if_neg (by simp)] at h
  split at h
  next e1 st1 heq =>
    simp only [Prod.mk.injEq, Except.error.injEq] at h
    rw [← h.1]
    exact get_client_error_class _ _ _ _ _ _ _ heq
  next c st1 heq =>
    split at h
    · simp only [Prod.mk.injEq, Except.error.injEq] at h
      rw [← h.1]; rfl
    · simp only [Prod.mk.injEq, Except.error.injEq] at h
      rw [← h.1]; rfl
    · simp at h

/-- The loop of `batch_start` maps each matched VM independently to its
result tuple and invokes `start_vm` exactly on the VMs not already
running. -/
theorem batchStartGo_spec (env : Env) (vms : List VM) :
    batchStartGo env vms =
      (vms.map (startResult env),
       (vms.filter fun vm => decide (vm.state ≠ VMState.running)).map
         (fun vm => (vm.name, vm.host))) := by
  induction vms with
  | nil => rfl
  | cons vm rest ih =>
    by_cases hst : vm.state = VMState.running <;>
      simp [batchStartGo, ih, startResult, hst]

/-- The loop of `batch_stop` maps each matched VM independently to its
result tuple and invokes `stop_vm` exactly on the VMs not already
stopped. -/
theorem batchStopGo_spec (env : Env) (force : Bool) (vms : List VM) :
    batchStopGo env force vms =
      (vms.map (stopResult env force),
       (vms.filter fun vm => decide (vm.state ≠ VMState.stopped)).map
         (fun vm => (vm.name, vm.host))) := by
  induction vms with
  | nil => rfl
  | cons vm rest ih =>
    by_cases hst : vm.state = VMState.stopped <;>
      simp [batchStopGo, ih, stopResult, hst]

/-! ## Claim theorems -/

/-- C9: for every host, command, timeout, manager state and environment,
`run(host, command, dry_run=True)` returns exit code 0 (a success result)
with empty stderr and the fixed sentinel string
`"[dry-run mode - command not executed]"` in stdout, leaves the connection
pool state completely unchanged (no session created, nothing closed), and
performs no sleeps — the network-facing environment is never consulted. -/
theorem run_dry_run_no_network (cfg : MgrCfg) (host : Host) (command : String)
    (timeout : Option Nat) (envs : Nat → AttemptEnv) (rand : Nat → ℚ)
    (st : MgrState) :
    SSHrun cfg host command timeout true envs rand st =
      (.ok { stdout := "[dry-run mode - command not executed]", stderr := "",
             exit_code := 0, host := host.name, command := command }, st, []) ∧
    SSHResult.success ⟨"[dry-run mode - command not executed]", "", 0,
      host.name, command⟩ = true :=
  ⟨rfl, rfl⟩

/-- C1 counterexample: the claim "an authentication failure propagates on its
first occurrence and is never retried, and a timeout raised during remote
command execution is not retried" is false on the code.  With an empty pool,
an `AuthenticationException` on attempt 1 followed by a successful attempt 2
makes `run` return the success result after one retry sleep (the
`SSHAuthenticationError` did not propagate), because `SSHAuthenticationError`
is a subclass of `SSHConnectionError`, the retry allow-list entry; likewise a
`TimeoutError` during command execution on attempt 1 is wrapped into
`SSHConnectionError` and retried, so `run` returns the attempt-2 success. -/
theorem run_retries_auth_failure_counterexample :
    ((SSHrun {} hostA "cmd" none false envsAuthThenOk (fun _ => 0)
        ⟨[], 0, []⟩).1 = .ok ⟨"out", "", 0, "A", "cmd"⟩) ∧
    ((SSHrun {} hostA "cmd" none false envsAuthThenOk (fun _ => 0)
        ⟨[], 0, []⟩).2.2.length = 1) ∧
    ((SSHrun {} hostA "cmd" (some 7) false envsExecTimeoutThenOk (fun _ => 0)
        ⟨[], 0, []⟩).1 = .ok ⟨"out", "", 0, "A", "cmd"⟩) ∧
    ((SSHrun {} hostA "cmd" (some 7) false envsExecTimeoutThenOk (fun _ => 0)
        ⟨[], 0, []⟩).2.2.length = 1) := by
  refine ⟨?_, ?_, ?_, ?_⟩ <;> decide

/-- C1 (amended): every failure escaping the live body of `SSHManager.run` —
including authentication failures (`SSHAuthenticationError` is a subclass of
`SSHConnectionError`) and timeouts during command execution (wrapped into
`SSHConnectionError`) — is in the retry decorator's allow-list and is
therefore retried: whenever attempt 1 of the body fails and attempt 2
succeeds, `run` returns the attempt-2 success after exactly one backoff
sleep. -/
theorem run_retries_all_connection_class_errors (cfg : MgrCfg) (host : Host)
    (command : String) (timeout : Option Nat) (envs : Nat → AttemptEnv)
    (rand : Nat → ℚ) (st : MgrState) :
    (∀ e st1, run_body cfg host command timeout false (envs 1) st = (.error e, st1) →
      e.isSSHConnectionError = true) ∧
    (∀ e st1 v st2,
      run_body cfg host command timeout false (envs 1) st = (.error e, st1) →
      run_body cfg host command timeout false (envs 2) st1 = (.ok v, st2) →
      SSHrun cfg host command timeout false envs rand st =
        (.ok v, st2, [pyDelay 1 30 2 true rand 1])) := by
  constructor
  · intro e st1 h
    exact run_body_error_class _ _ _ _ _ _ _ _ h
  · intro e st1 v st2 h1 h2
    have hre : e.isSSHConnectionError = true := run_body_error_class _ _ _ _ _ _ _ _ h1
    simp only [SSHrun, retry_with_backoff, retryGo, h1, hre, if_true]
    rw [if_neg (by omega)]
    simp only [retryGo, h2]

/-- C1 amended witness: concrete instance — attempt 1 hits an authentication
failure, attempt 2 succeeds; `run` returns the success with one sleep. -/
theorem run_retries_all_connection_class_errors_witness :
    SSHrun {} hostA "cmd" none false envsAuthThenOk (fun _ => 0) ⟨[], 0, []⟩ =
      (.ok ⟨"out", "", 0, "A", "cmd"⟩,
       ⟨[("A", ⟨0, hostA, 5⟩)], 1, []⟩,
       [pyDelay 1 30 2 true (fun _ => 0) 1]) :=
  (run_retries_all_connection_class_errors {} hostA "cmd" none envsAuthThenOk
    (fun _ => 0) ⟨[], 0, []⟩).2
    (.sshAuth "a.local" none) ⟨[], 0, []⟩
    ⟨"out", "", 0, "A", "cmd"⟩ ⟨[("A", ⟨0, hostA, 5⟩)], 1, []⟩
    (by decide) (by decide)

/-- C2 counterexample: the claim says that in every case other than pooled
reuse "any existing pool entry for host.name is best-effort closed …
removed, and a newly created authenticated client is returned and stored".
With `force_new = True` and an existing, active, young entry (client 7), the
code skips the whole pooled-entry block: a new client (8) is created,
returned and stored over the old entry, but client 7 is never closed —
`closed` stays empty. -/
theorem get_client_force_new_skips_close_counterexample :
    poolFind stPool7.pool "A" = some ⟨7, hostA, 9⟩ ∧
    (fun _ => true : Nat → Bool) 7 = true ∧
    get_client {} hostA true ⟨10, fun _ => true, none⟩ stPool7 =
      (.ok 8, ⟨[("A", ⟨8, hostA, 10⟩)], 9, []⟩) ∧
    (get_client {} hostA true ⟨10, fun _ => true, none⟩ stPool7).2.closed = [] := by
  refine ⟨?_, ?_, ?_, ?_⟩ <;> decide

/-- C2 (amended): `get_client` returns the pooled client, with the state
unchanged, exactly when `force_new` is false, an entry for `host.name`
exists, its transport activity check passes, and its age is strictly below
`pool_max_age`.  When `force_new` is false and the existing entry fails the
activity or age check, the entry is closed and removed and a fresh client is
created and stored.  When `force_new` is true or no entry exists, a fresh
client is created and stored over any existing entry *without* closing it.
Creation failures propagate (as connection-class errors) with nothing
stored. -/
theorem get_client_pool_reuse_characterization (cfg : MgrCfg) (host : Host)
    (force_new : Bool) (env : ConnEnv) (st : MgrState) :
    (∀ pooled, force_new = false → poolFind st.pool host.name = some pooled →
      env.isActive pooled.client = true →
      env.now - pooled.created_at < (cfg.pool_max_age : Int) →
      get_client cfg host force_new env st = (.ok pooled.client, st)) ∧
    (∀ pooled, force_new = false → poolFind st.pool host.name = some pooled →
      ¬(env.isActive pooled.client = true ∧
        env.now - pooled.created_at < (cfg.pool_max_age : Int)) →
      get_client cfg host force_new env st =
        createAndPool cfg host env
          { st with pool := poolErase st.pool host.name,
                    closed := pooled.client :: st.closed }) ∧
    ((force_new = true ∨ poolFind st.pool host.name = none) →
      get_client cfg host force_new env st = createAndPool cfg host env st) ∧
    (∀ st1, env.createErr = none →
      createAndPool cfg host env st1 =
        (.ok st1.nextClient,
         { pool := poolInsert st1.pool host.name ⟨st1.nextClient, host, env.now⟩,
           nextClient := st1.nextClient + 1, closed := st1.closed })) ∧
    (∀ st1 ce, env.createErr = some ce →
      ∃ e, createAndPool cfg host env st1 = (.error e, st1) ∧
        e.isSSHConnectionError = true) := by
  refine ⟨?_, ?_, ?_, ?_, ?_⟩
  · intro pooled hfn hfind hact hage
    simp [get_client, hfn, hfind, hact, hage]
  · intro pooled hfn hfind hstale
    have hcond : (env.isActive pooled.client
        && decide (env.now - pooled.created_at < (cfg.pool_max_age : Int))) = false := by
      rcases hai : env.isActive pooled.client with _ | _
      · rfl
      · simp only [Bool.true_and, decide_eq_false_iff_not]
        intro hlt
        exact hstale ⟨hai, hlt⟩
    simp [get_client, hfn, hfind, hcond]
  · rintro (hfn | hfind)
    · simp [get_client, hfn]
    · rcases hfn : force_new with _ | _
      · simp [get_client, hfn, hfind]
      · simp [get_client, hfn]
  · intro st1 hce
    simp [createAndPool, create_client, hce]
  · intro st1 ce hce
    rcases ce with _ | _ | m
    · exact ⟨.sshAuth host.hostname host.username,
        by simp [createAndPool, create_client, hce], rfl⟩
    · exact ⟨.sshTimeout host.hostname cfg.default_timeout,
        by simp [createAndPool, create_client, hce], rfl⟩
    · exact ⟨.sshConn host.hostname m,
        by simp [createAndPool, create_client, hce], rfl⟩

/-- C2 amended witness: a pooled, active, young entry is reused unchanged
when `force_new` is false. -/
theorem get_client_pool_reuse_characterization_witness :
    get_client {} hostA false ⟨10, fun _ => true, none⟩ stPool7 =
      (.ok 7, stPool7) :=
  (get_client_pool_reuse_characterization {} hostA false
      ⟨10, fun _ => true, none⟩ stPool7).1
    ⟨7, hostA, 9⟩ rfl (by decide) rfl (by decide)

/-- C3: for an operation failing exactly `k < maxAttempts` times with a
retryable error and then succeeding, `retry_with_backoff` returns the
success value and sleeps exactly `k` times; without jitter the delay before
retry `i` (1-indexed) is `min(base_delay * exponential_base^(i-1),
max_delay)`, a sequence that is non-decreasing (for non-negative base delay
and exponential base at least 1) and bounded by `max_delay`; with jitter
each delay is that value scaled by `1 + random() * 0.5`, a uniform
multiplier in `[1.0, 1.5)` when the random draws lie in `[0, 1)`. -/
theorem retry_backoff_failures_then_success {α : Type} (k maxA : Nat)
    (b M eb : ℚ) (retryable : PyExc → Bool) (rand : Nat → ℚ)
    (f : Nat → Except PyExc α) (v : α)
    (hk : k < maxA) (hb : 0 ≤ b) (heb : 1 ≤ eb)
    (hfail : ∀ j, 1 ≤ j → j ≤ k → ∃ e, f j = .error e ∧ retryable e = true)
    (hok : f (k + 1) = .ok v) :
    (retryPure maxA b M eb false retryable rand f).1 = .ok v ∧
    (retryPure maxA b M eb false retryable rand f).2 =
      (List.range k).map (fun i => min (b * eb ^ i) M) ∧
    (retryPure maxA b M eb false retryable rand f).2.length = k ∧
    (∀ i j : Nat, i ≤ j → min (b * eb ^ i) M ≤ min (b * eb ^ j) M) ∧
    (∀ i : Nat, min (b * eb ^ i) M ≤ M) ∧
    (retryPure maxA b M eb true retryable rand f).1 = .ok v ∧
    (retryPure maxA b M eb true retryable rand f).2 =
      (List.range k).map
        (fun i => min (b * eb ^ i) M * (1 + rand (i + 1) * (1/2))) ∧
    (∀ i : Nat, 0 ≤ rand i → rand i < 1 →
      1 ≤ 1 + rand i * (1/2) ∧ 1 + rand i * (1/2) < 3/2) := by
  have hgen : ∀ jit : Bool,
      retryGo (fun t _ => (f t, ())) maxA b M eb jit retryable rand maxA 1 () =
        (.ok v, (), (List.range k).map (fun i => pyDelay b M eb jit rand (1 + i))) := by
    intro jit
    exact retryGo_pure_spec f maxA b M eb jit retryable rand v k 1 maxA hk
      (by omega)
      (fun j h1 h2 => hfail j h1 (by omega))
      (by rw [show 1 + k = k + 1 from by omega]; exact hok)
  have hdelay_false : ∀ i : Nat,
      pyDelay b M eb false rand (1 + i) = min (b * eb ^ i) M := by
    intro i
    have hsub : 1 + i - 1 = i := by omega
    simp [pyDelay, hsub]
  have hdelay_true : ∀ i : Nat,
      pyDelay b M eb true rand (1 + i) =
        min (b * eb ^ i) M * (1 + rand (1 + i) * (1/2)) := by
    intro i
    have hsub : 1 + i - 1 = i := by omega
    simp [pyDelay, hsub]
  refine ⟨?_, ?_, ?_, ?_, ?_, ?_, ?_, ?_⟩
  · simp only [retryPure, retry_with_backoff, hgen false]
  · simp only [retryPure, retry_with_backoff, hgen false]
    exact List.map_congr_left fun i _ => hdelay_false i
  · simp only [retryPure, retry_with_backoff, hgen false, List.length_map,
      List.length_range]
  · intro i j hij
    refine min_le_min ?_ le_rfl
    exact mul_le_mul_of_nonneg_left (pow_le_pow_right₀ heb hij) hb
  · intro i
    exact min_le_right _ _
  · simp only [retryPure, retry_with_backoff, hgen true]
  · simp only [retryPure, retry_with_backoff, hgen true]
    refine List.map_congr_left fun i _ => ?_
    rw [hdelay_true i, show 1 + i = i + 1 from by omega]
  · intro i h0 h1
    constructor
    · nlinarith
    · nlinarith

/-- C3 witness: one connection-class failure then success, under the
decorator parameters used by `SSHManager.run` (3 attempts, base delay 1,
max delay 30, exponential base 2): the wrapped call returns the success
value after exactly one sleep. -/
theorem retry_backoff_failures_then_success_witness :
    (retryPure 3 1 30 2 false (fun _ => true) (fun _ => 0) fRetry).1 = .ok 42 ∧
    (retryPure 3 1 30 2 false (fun _ => true) (fun _ => 0) fRetry).2.length = 1 := by
  have h := retry_backoff_failures_then_success 1 3 1 30 2 (fun _ => true)
    (fun _ => 0) fRetry 42 (by omega) (by norm_num) (by norm_num)
    (fun j h1 h2 => by
      have hj : j = 1 := by omega
      exact ⟨.sshConn "h" "boom", by rw [hj]; decide, rfl⟩)
    (by decide)
  exact ⟨h.1, h.2.2.1⟩

/-- C4: for the list of N VMs matched by the pattern, `batch_start` and
`batch_stop` return exactly the N result tuples, in the matched order, each
determined independently by its own VM: a VM already in the target state
yields a success tuple and `start_vm`/`stop_vm` is invoked (issuing the
remote command) exactly for the VMs not already in the target state; a VM
whose operation raises yields `(name, False, str(e))` without affecting any
other VM's tuple. -/
theorem batch_operations_per_vm_results (env : Env) (pattern : String)
    (host_name : Option String) (force : Bool) (vms : List VM)
    (h : list_vms env host_name (some pattern) = .ok vms) :
    batch_start env pattern host_name =
      .ok (vms.map (startResult env),
        (vms.filter fun vm => decide (vm.state ≠ VMState.running)).map
          (fun vm => (vm.name, vm.host))) ∧
    batch_stop env pattern host_name force =
      .ok (vms.map (stopResult env force),
        (vms.filter fun vm => decide (vm.state ≠ VMState.stopped)).map
          (fun vm => (vm.name, vm.host))) ∧
    (vms.map (startResult env)).length = vms.length ∧
    (vms.map (stopResult env force)).length = vms.length ∧
    (∀ vm, vm.state = VMState.running →
      startResult env vm = (vm.name, true, "Already running")) ∧
    (∀ vm, vm.state = VMState.stopped →
      stopResult env force vm = (vm.name, true, "Already stopped")) ∧
    (∀ vm e, vm.state ≠ VMState.running →
      start_vm env vm.name vm.host = .error e →
      startResult env vm = (vm.name, false, pyStr e)) ∧
    (∀ vm e, vm.state ≠ VMState.stopped →
      stop_vm env vm.name vm.host force = .error e →
      stopResult env force vm = (vm.name, false, pyStr e)) := by
  refine ⟨?_, ?_, by simp, by simp, ?_, ?_, ?_, ?_⟩
  · simp [batch_start, h, bind, Except.bind, batchStartGo_spec, pure, Except.pure]
  · simp [batch_stop, h, bind, Except.bind, batchStopGo_spec, pure, Except.pure]
  · intro vm hst
    simp [startResult, hst]
  · intro vm hst
    simp [stopResult, hst]
  · intro vm e hst herr
    simp [startResult, hst, herr]
  · intro vm e hst herr
    simp [stopResult, hst, herr]

/-- C4 witness: host `A` lists `b-1` (already running) and `b-2` (stopped,
whose start fails remotely); the batch result has one tuple per VM in
order. -/
theorem batch_operations_per_vm_results_witness :
    batch_start envBatch "b-*" none =
      .ok ([vmB1, vmB2].map (startResult envBatch),
        ([vmB1, vmB2].filter fun vm => decide (vm.state ≠ VMState.running)).map
          (fun vm => (vm.name, vm.host))) :=
  (batch_operations_per_vm_results envBatch "b-*" none false [vmB1, vmB2]
    (by decide)).1

/-- C5: when the remote stop command exits non-zero, `stop_vm` raises
`VMNotFoundError` (carrying the VM name and host) exactly when the
lower-cased stderr contains the substring "not found", and otherwise raises
`VMStopError` carrying the VM name, the operation kind, the host and the raw
stderr; `start_vm` and `delete_vm` translate failures identically (with
`VMStartError` resp. a `delete` `VMOperationError`). -/
theorem vm_op_failure_translation (env : Env) (name host_name : String)
    (force : Bool) :
    (∀ h r, findHost env.hosts host_name = some h →
      run_tart env h "stop" ([name] ++ if force then ["--force"] else []) false = .ok r →
      r.exit_code ≠ 0 →
      stop_vm env name host_name force =
        .error (if containsNotFound r.stderr then .vmNotFound name (some host_name)
                else .vmStop name r.stderr (some host_name))) ∧
    (∀ h r, findHost env.hosts host_name = some h →
      run_tart env h "run" [name, "--no-graphics"] false = .ok r →
      r.exit_code ≠ 0 →
      start_vm env name host_name =
        .error (if containsNotFound r.stderr then .vmNotFound name (some host_name)
                else .vmStart name r.stderr (some host_name))) ∧
    (∀ h r, findHost env.hosts host_name = some h →
      run_tart env h "delete" [name] false = .ok r →
      r.exit_code ≠ 0 →
      delete_vm env name host_name =
        .error (if containsNotFound r.stderr then .vmNotFound name (some host_name)
                else .vmOp name "delete" r.stderr (some host_name))) ∧
    PyExc.details (.vmNotFound name (some host_name)) =
      [("vm_name", name), ("operation", "find"), ("host", host_name)] ∧
    (∀ stderr, PyExc.details (.vmStop name stderr (some host_name)) =
      [("vm_name", name), ("operation", "stop"), ("host", host_name)]) := by
  refine ⟨?_, ?_, ?_, rfl, fun _ => rfl⟩
  · intro h r hh hr hfail
    have hs : r.success = false := by
      simp only [SSHResult.success, beq_eq_false_iff_ne, ne_eq]
      exact hfail
    simp only [stop_vm, get_host, hh, bind, Except.bind, hr, hs, Bool.false_eq_true,
      if_false]
    split <;> rfl
  · intro h r hh hr hfail
    have hs : r.success = false := by
      simp only [SSHResult.success, beq_eq_false_iff_ne, ne_eq]
      exact hfail
    simp only [start_vm, get_host, hh, bind, Except.bind, hr, hs, Bool.false_eq_true,
      if_false]
    split <;> rfl
  · intro h r hh hr hfail
    have hs : r.success = false := by
      simp only [SSHResult.success, beq_eq_false_iff_ne, ne_eq]
      exact hfail
    simp only [delete_vm, get_host, hh, bind, Except.bind, hr, hs, Bool.false_eq_true,
      if_false]
    split <;> rfl

/-- C5 witness: `stop("vm-1", "A", force=True)` with remote exit code 1 and
stderr `"VM not found"` raises the vm-not-found error naming `vm-1` and `A`,
not a generic operation-failed error. -/
theorem vm_op_failure_translation_witness :
    stop_vm envStopNotFound "vm-1" "A" true =
      .error (.vmNotFound "vm-1" (some "A")) := by
  have h := (vm_op_failure_translation envStopNotFound "vm-1" "A" true).1
    hostA ⟨"", "VM not found", 1, "A", "tart stop vm-1 --force"⟩
    rfl (by decide) (by decide)
  rw [h]
  decide

/-- C6: when the remote start command succeeds (exit code 0) but the status
re-query finds no matching VM (the per-host listing failures having been
swallowed into an empty listing), `start_vm` does not raise: it returns a
synthetic VM with the requested (non-empty) name, the requested host, and
state `starting`. -/
theorem start_vm_synthetic_starting (env : Env) (name host_name : String)
    (h : Host) (r : SSHResult)
    (hh : findHost env.hosts host_name = some h)
    (hr : run_tart env h "run" [name, "--no-graphics"] false = .ok r)
    (hok : r.exit_code = 0)
    (hq : get_vm env name host_name = .ok none)
    (hname : 1 ≤ name.length) :
    start_vm env name host_name =
      .ok { name := name, host := host_name, state := VMState.starting } := by
  have hs : r.success = true := by simp [SSHResult.success, hok]
  simp only [start_vm, get_host, hh, bind, Except.bind, hr, hs, if_true, hq]
  simp [mkVM, VM.valid, hname]

/-- C6 witness: `tart run vm-1 --no-graphics` succeeds on `A` but the
re-query lists nothing; `start_vm` returns the synthetic `starting` VM. -/
theorem start_vm_synthetic_starting_witness :
    start_vm envStartNoRequery "vm-1" "A" =
      .ok { name := "vm-1", host := "A", state := VMState.starting } :=
  start_vm_synthetic_starting envStartNoRequery "vm-1" "A" hostA
    ⟨"", "", 0, "A", "tart run vm-1 --no-graphics"⟩
    rfl (by decide) rfl (by decide) (by decide)

/-- C7: failures confined to one host — an exception from the listing
command, a non-zero exit, or a JSON decode failure of its output — make that
host contribute exactly zero VMs, and the multi-host aggregate is the
per-host concatenation (a total function: it cannot raise and keeps every
other host's contribution). -/
theorem list_vms_host_local_failure_isolation (env : Env) :
    (∀ host e, run_tart env host "list" [] true = .error e →
      list_vms_on_host env host = []) ∧
    (∀ host r, run_tart env host "list" [] true = .ok r → r.exit_code ≠ 0 →
      list_vms_on_host env host = []) ∧
    (∀ host r, run_tart env host "list" [] true = .ok r →
      r.stdout ≠ "" → pyStartsWith r.stdout "[dry-run" = false →
      env.decode r.stdout = none →
      list_vms_on_host env host = []) ∧
    (∀ host r e, run_tart env host "list" [] true = .ok r →
      parse_tart_list env r.stdout host.name = .error e →
      list_vms_on_host env host = []) ∧
    (∀ pattern, list_vms env none pattern =
      .ok (patternFilter pattern
        (env.hosts.flatMap (fun h => list_vms_on_host env h)))) := by
  refine ⟨?_, ?_, ?_, ?_, fun pattern => rfl⟩
  · intro host e herr
    simp [list_vms_on_host, herr]
  · intro host r hr hcode
    have hs : r.success = false := by
      simp only [SSHResult.success, beq_eq_false_iff_ne, ne_eq]
      exact hcode
    simp [list_vms_on_host, hr, hs]
  · intro host r hr hne hsw hdec
    rcases hs : r.success with _ | _
    · simp [list_vms_on_host, hr, hs]
    · simp [list_vms_on_host, hr, hs, parse_tart_list, hne, hsw, hdec]
  · intro host r e hr hp
    rcases hs : r.success with _ | _
    · simp [list_vms_on_host, hr, hs]
    · simp [list_vms_on_host, hr, hs, hp]

/-- C7 witness: host `A` is unreachable (connection error) while host `B`
lists one VM; `A` contributes zero VMs and the aggregate call still returns
the per-host concatenation. -/
theorem list_vms_host_local_failure_isolation_witness :
    list_vms_on_host envTwoHosts hostA = [] ∧
    list_vms envTwoHosts none none =
      .ok (patternFilter none
        (envTwoHosts.hosts.flatMap (fun h => list_vms_on_host envTwoHosts h))) :=
  ⟨(list_vms_host_local_failure_isolation envTwoHosts).1 hostA
      (.sshConn "a.local" "unreachable") (by decide),
   (list_vms_host_local_failure_isolation envTwoHosts).2.2.2.2 none⟩

/-- C8: the glob name pattern of `list_vms` is applied to the combined
multi-host result after per-host collection, selecting exactly the VMs whose
names match the glob regardless of state; concretely, over a collected set
`test-1` (running), `test-2` (stopped), `builder-1` (suspended), pattern
`test-*` returns exactly `test-1` and `test-2`. -/
theorem list_vms_glob_filter (env : Env) (host_name : Option String)
    (p : String) (hp : p ≠ "") :
    list_vms env host_name (some p) =
      Except.map (fun vms => vms.filter (fun vm => fnmatch vm.name p))
        (list_vms env host_name none) ∧
    list_vms envList3 none (some "test-*") =
      .ok [{ name := "test-1", host := "A", state := .running },
           { name := "test-2", host := "A", state := .stopped }] := by
  constructor
  · rcases hh : truthy host_name with _ | _
    · simp only [list_vms]
      rw [hh, if_neg (by simp)]
      simp [patternFilter, truthy, hp, Except.map]
    · simp only [list_vms]
      rw [hh, if_pos rfl]
      rcases hg : get_host env (host_name.getD "") with e | hres
      · simp [Except.map]
      · simp [patternFilter, truthy, hp, Except.map]
  · decide

/-- C8 witness: the generic filter law at a non-empty pattern over the
three-VM fixture. -/
theorem list_vms_glob_filter_witness :
    list_vms envList3 none (some "test-*") =
      Except.map (fun vms => vms.filter (fun vm => fnmatch vm.name "test-*"))
        (list_vms envList3 none none) :=
  (list_vms_glob_filter envList3 none "test-*" (by decide)).1

/-- C10: a listing that decodes to an array containing one record violating
the VM model's constraints (here CPU 0 < 1) makes the pydantic
ValidationError escape `_parse_tart_list` — whose error handling covers only
JSON decode errors — and get caught at host level, so the host contributes
zero VMs: the valid records of the same listing are silently dropped along
with the invalid one. -/
theorem invalid_record_drops_entire_host_listing (env : Env) :
    (∀ output host_name items e, output ≠ "" →
      pyStartsWith output "[dry-run" = false →
      env.decode output = some (.arr items) →
      parseItems host_name items = .error e →
      parse_tart_list env output host_name = .error e) ∧
    (∀ host r e, run_tart env host "list" [] true = .ok r →
      parse_tart_list env r.stdout host.name = .error e →
      list_vms_on_host env host = []) ∧
    parseItems "A" [goodItem] =
      .ok [{ name := "good-vm", host := "A", state := .running,
             cpu := some 4, memory := some 8192 }] ∧
    (∃ e, parseItems "A" [goodItem, badItem] = .error e) ∧
    list_vms envBadRecord none none = .ok [] := by
  refine ⟨?_, ?_, by decide, ⟨.validation "validation error for VM bad-vm", by decide⟩, by decide⟩
  · intro output host_name items e hne hsw hdec hp
    simp [parse_tart_list, hne, hsw, hdec, hp]
  · intro host r e hr hp
    rcases hs : r.success with _ | _
    · simp [list_vms_on_host, hr, hs]
    · simp [list_vms_on_host, hr, hs, hp]

/-- C10 witness: the concrete mixed listing of `envBadRecord` produces a
validation error from `_parse_tart_list` and an empty per-host result. -/
theorem invalid_record_drops_entire_host_listing_witness :
    parse_tart_list envBadRecord "LIST" "A" =
      .error (.validation "validation error for VM bad-vm") ∧
    list_vms_on_host envBadRecord hostA = [] :=
  ⟨(invalid_record_drops_entire_host_listing envBadRecord).1 "LIST" "A"
      [goodItem, badItem] (.validation "validation error for VM bad-vm")
      (by decide) (by decide) rfl (by decide),
   (invalid_record_drops_entire_host_listing envBadRecord).2.1 hostA
      ⟨"LIST", "", 0, "A", "tart list --format json"⟩
      (.validation "validation error for VM bad-vm")
      (by decide)
      ((invalid_record_drops_entire_host_listing envBadRecord).1 "LIST" "A"
        [goodItem, badItem] (.validation "validation error for VM bad-vm")
        (by decide) (by decide) rfl (by decide))⟩

end Grovectl
